import Mathlib

/-!
# Lichen Social — verification of the spec against `src/main.py`

Shallow embedding of the FastAPI service in `src/main.py`:

* a small model of the Python values and builtins the handlers use
  (`str`, `int`, `dict.get`, truthiness of `fetchone` results);
* a model of the external token codec (`jose.jwt.encode` / `jwt.decode`)
  at the contract boundary described in the spec;
* the store state (`users`, `posts`, `follows` relations) with the exact
  parameterized SQL statements interpreted over it;
* the five request handlers (`register`, `login`, `create_post`, `feed`,
  `follow`) and the session guard (`get_current_user`), translated
  line by line from the source.

Machine integers are `Int` (Python ints are unbounded); timestamps are
`Int` seconds; the password hasher and verifier are abstract function
parameters (external collaborators).
-/

namespace Lichen

/-! ## Python value model -/

/-- A Python value as it occurs in this program: an int, a string, or `None`.
JSON claim payloads decoded by `jwt.decode` also land in this type. -/
inductive PyVal where
  | vint (n : Int)
  | vstr (s : String)
  | vnone
deriving DecidableEq, Repr

/-- The Python exceptions that `int(...)` can raise and that the
`except JWTError` clause in `get_current_user` does NOT catch. -/
inductive PyErr where
  | typeError
  | valueError
deriving DecidableEq, Repr

/-- `x is None` for our Python values. -/
def pyIsNone : PyVal → Bool
  | .vnone => true
  | _ => false

/-! Decimal rendering and parsing, modelling Python's `str` on ints and
`int` on strings (the two builtins composed by `create_access_token`'s
caller and `get_current_user`). -/

/-- The character for a single decimal digit. -/
def digitChar (d : Nat) : Char := Char.ofNat (48 + d)

/-- The numeric value of a decimal digit character. -/
def digitVal (c : Char) : Nat := c.toNat - 48

/-- Whether `c` is one of the characters `0`–`9`. -/
def isDigitCh (c : Char) : Bool := 48 ≤ c.toNat && c.toNat ≤ 57

/-- Decimal digit characters of a natural number, most significant first. -/
def natChars (n : Nat) : List Char :=
  if n = 0 then ['0'] else ((Nat.digits 10 n).map digitChar).reverse

/-- Model of Python `str` on a nonnegative int. -/
def natStr (n : Nat) : String := String.mk (natChars n)

/-- Model of Python `str` on an int: optional minus sign, then decimal digits. -/
def pyStrOfInt (n : Int) : String :=
  if n < 0 then String.mk ('-' :: natChars n.natAbs) else natStr n.toNat

/-- Parse a nonempty all-digit character list as a natural number
(most significant digit first); `none` otherwise. -/
def parseDigits (cs : List Char) : Option Nat :=
  if cs ≠ [] ∧ ∀ c ∈ cs, isDigitCh c then
    some (Nat.ofDigits 10 ((cs.map digitVal).reverse))
  else none

/-- Model of Python `int` applied to the characters of a string: an optional
minus sign followed by decimal digits parses to the signed value; everything
else raises (`none` here stands for the `ValueError`). -/
def pyIntOfChars : List Char → Option Int
  | [] => none
  | c :: cs =>
    if c = '-' then
      match parseDigits cs with
      | some m => some (-(m : Int))
      | none => none
    else
      match parseDigits (c :: cs) with
      | some m => some ((m : Int))
      | none => none

/-- Model of Python `int` applied to a string. -/
def pyIntOfString (s : String) : Option Int := pyIntOfChars s.data

/-- Model of Python `int(x)` on the values that can reach it in
`get_current_user`: ints pass through, numeric strings parse, non-numeric
strings raise `ValueError`, and `None` raises `TypeError`. -/
def pyInt : PyVal → Except PyErr Int
  | .vint n => .ok n
  | .vstr s =>
    match pyIntOfString s with
    | some n => .ok n
    | none => .error .valueError
  | .vnone => .error .typeError

/-! ### Decimal roundtrip lemmas -/

theorem digitVal_digitChar {d : Nat} (h : d < 10) : digitVal (digitChar d) = d := by
  interval_cases d <;> decide

theorem isDigitCh_digitChar {d : Nat} (h : d < 10) : isDigitCh (digitChar d) = true := by
  interval_cases d <;> decide

theorem natChars_ne_nil (n : Nat) : natChars n ≠ [] := by
  unfold natChars
  split
  · simp
  · next h =>
    simp only [ne_eq, List.reverse_eq_nil_iff, List.map_eq_nil_iff]
    exact Nat.digits_ne_nil_iff_ne_zero.mpr h

theorem natChars_all_digit (n : Nat) : ∀ c ∈ natChars n, isDigitCh c := by
  unfold natChars
  split
  · intro c hc; simp at hc; subst hc; decide
  · intro c hc
    simp only [List.mem_reverse, List.mem_map] at hc
    obtain ⟨d, hd, rfl⟩ := hc
    exact isDigitCh_digitChar (Nat.digits_lt_base (by norm_num) hd)

theorem parseDigits_natChars (n : Nat) : parseDigits (natChars n) = some n := by
  unfold parseDigits
  rw [if_pos ⟨natChars_ne_nil n, natChars_all_digit n⟩]
  congr 1
  unfold natChars
  split
  · next h => subst h; decide
  · rw [List.map_reverse, List.reverse_reverse, List.map_map]
    have h10 : ∀ d ∈ Nat.digits 10 n, (digitVal ∘ digitChar) d = d := by
      intro d hd
      exact digitVal_digitChar (Nat.digits_lt_base (by norm_num) hd)
    rw [List.map_congr_left h10]
    simp [Nat.ofDigits_digits]

theorem isDigitCh_head_ne_dash {c : Char} (h : isDigitCh c = true) : c ≠ '-' := by
  intro hc; subst hc; simp [isDigitCh] at h

/-- `int(str(n)) = n` for every Python int `n`: the decimal rendering of an
int always parses back to the same int. -/
theorem pyIntOfString_pyStrOfInt (n : Int) : pyIntOfString (pyStrOfInt n) = some n := by
  unfold pyStrOfInt
  split
  · next hneg =>
    show pyIntOfChars (String.mk ('-' :: natChars n.natAbs)).data = some n
    have hdata : (String.mk ('-' :: natChars n.natAbs)).data = '-' :: natChars n.natAbs := rfl
    rw [hdata]
    have hstep : pyIntOfChars ('-' :: natChars n.natAbs) =
        match parseDigits (natChars n.natAbs) with
        | some m => some (-(m : Int))
        | none => none := by
      simp [pyIntOfChars]
    rw [hstep, parseDigits_natChars]
    show some (-((n.natAbs : Nat) : Int)) = some n
    congr 1
    omega
  · next hpos =>
    show pyIntOfChars (natStr n.toNat).data = some n
    have hall := natChars_all_digit n.toNat
    cases hcs : natChars n.toNat with
    | nil => exact absurd hcs (natChars_ne_nil n.toNat)
    | cons c cs =>
      have hdata : (natStr n.toNat).data = c :: cs := by
        simp [natStr, hcs]
      have hc : isDigitCh c := hall c (hcs ▸ List.mem_cons_self c cs)
      rw [hdata]
      have hstep : pyIntOfChars (c :: cs) =
          match parseDigits (c :: cs) with
          | some m => some ((m : Int))
          | none => none := by
        simp [pyIntOfChars, if_neg (isDigitCh_head_ne_dash hc)]
      rw [hstep, ← hcs, parseDigits_natChars]
      show some (((n.toNat : Nat) : Int)) = some n
      congr 1
      omega

/-! ## Token codec (external collaborator `jose.jwt`) and session guard

The codec is modelled at the contract boundary of §4.2: a token records the
claims it was encoded with and the key it was signed with.  `jwt.decode`
succeeds exactly when the key matches, the `exp` claim (checked when
present) lies in the future, and the `sub` claim (when present) is a
string; every failure is the single `JWTError` kind. -/

/-- A claims dictionary, as passed to `jwt.encode` / returned by `jwt.decode`. -/
abbrev Claims := List (String × PyVal)

/-- Python `dict.get k`: `some v` when the key is bound, `none` otherwise. -/
def dictGet (p : Claims) (k : String) : Option PyVal :=
  match p with
  | [] => none
  | (k2, v) :: rest => if k2 = k then some v else dictGet rest k

/-- Python `dict.update {k: v}`: rebinds `k` if present, else appends it. -/
def dictSet (p : Claims) (k : String) (v : PyVal) : Claims :=
  match p with
  | [] => [(k, v)]
  | (k2, v2) :: rest => if k2 = k then (k2, v) :: rest else (k2, v2) :: dictSet rest k v

/-- `payload.get("sub")` as the Python expression evaluates: `None` when absent. -/
def pyDictGetVal (p : Claims) (k : String) : PyVal :=
  (dictGet p k).getD .vnone

/-- A signed token: the claims payload together with the signing key.
An opaque stand-in for the compact JWS string. -/
structure Token where
  payload : Claims
  key : String

/-- `jwt.encode(to_encode, SECRET_KEY, algorithm=ALGORITHM)`. -/
def jwt_encode (payload : Claims) (key : String) : Token := ⟨payload, key⟩

/-- The expiry check `jwt.decode` performs: when an `exp` claim is present it
must be an int strictly in the future; a missing `exp` is accepted. -/
def expOk (p : Claims) (now : Int) : Prop :=
  match dictGet p "exp" with
  | some (.vint e) => now < e
  | some _ => False
  | none => True

/-- The `sub`-claim shape check `jwt.decode` performs: a present `sub` must be
a string. -/
def subOk (p : Claims) : Prop :=
  match dictGet p "sub" with
  | some (.vstr _) => True
  | some _ => False
  | none => True

instance (p : Claims) (now : Int) : Decidable (expOk p now) := by
  unfold expOk
  rcases dictGet p "exp" with _ | v
  · exact inferInstanceAs (Decidable True)
  · rcases v with n | s | _
    · exact inferInstanceAs (Decidable (now < n))
    · exact inferInstanceAs (Decidable False)
    · exact inferInstanceAs (Decidable False)

instance (p : Claims) : Decidable (subOk p) := by
  unfold subOk
  rcases dictGet p "sub" with _ | v
  · exact inferInstanceAs (Decidable True)
  · rcases v with n | s | _
    · exact inferInstanceAs (Decidable False)
    · exact inferInstanceAs (Decidable True)
    · exact inferInstanceAs (Decidable False)

/-- `jwt.decode(token, SECRET_KEY, algorithms=[ALGORITHM])`: the payload on
success, the single `JWTError` failure kind (`Unit` here) otherwise. -/
def jwt_decode (t : Token) (key : String) (now : Int) : Except Unit Claims :=
  if t.key = key ∧ expOk t.payload now ∧ subOk t.payload then .ok t.payload
  else .error ()

/-- `create_access_token` (src/main.py:53-57): copy the claims, set
`exp = now + ACCESS_TOKEN_EXPIRE_MINUTES minutes`, sign with the secret. -/
def create_access_token (data : Claims) (secretKey : String) (now minutes : Int) : Token :=
  let to_encode := dictSet data "exp" (.vint (now + minutes * 60))
  jwt_encode to_encode secretKey

/-- Outcome of the session guard: a resolved user id, a raised
`HTTPException` (status, detail), or a Python exception that no
`except` clause catches (an unhandled server fault). -/
inductive GuardResult where
  | ok (uid : Int)
  | httpError (status : Nat) (detail : Option String)
  | uncaught (e : PyErr)
deriving DecidableEq, Repr

/-- `get_current_user` (src/main.py:59-67), translated line by line:

* `jwt.decode` failure is caught by `except JWTError` → 401 "Invalid token";
* `user_id = int(payload.get("sub"))` — `int` raising `TypeError` (sub
  missing → `None`) or `ValueError` (non-numeric string) is NOT caught by
  `except JWTError` and escapes as an unhandled fault;
* `if user_id is None: raise HTTPException(status_code=401)` — the result of
  `int(...)` is an int, never `None`. -/
def get_current_user (token : Token) (secretKey : String) (now : Int) : GuardResult :=
  match jwt_decode token secretKey now with
  | .error _ => .httpError 401 (some "Invalid token")
  | .ok payload =>
    match pyInt (pyDictGetVal payload "sub") with
    | .error e => .uncaught e
    | .ok user_id =>
      if pyIsNone (.vint user_id) then .httpError 401 none
      else .ok user_id

/-! ## Credential store and SQL statements

The store state holds the three relations.  Row ids and `created_at`
timestamps are store-generated: the state carries the next fresh ids and
the store clock.  Each parameterized SQL statement of the source is
interpreted as a function from store state to (new state, result rows). -/

/-- A row of the `users` relation. -/
structure User where
  id : Int
  username : String
  email : String
  password_hash : String
deriving DecidableEq, Repr

/-- A row of the `posts` relation. -/
structure Post where
  id : Int
  user_id : Int
  content : String
  created_at : Int
deriving DecidableEq, Repr

/-- A row of the `follows` relation. -/
structure Follow where
  follower_id : Int
  following_id : Int
deriving DecidableEq, Repr

/-- The store state: the three relations plus the store-internal id
generators and clock. -/
structure DB where
  users : List User
  posts : List Post
  follows : List Follow
  nextUserId : Int
  nextPostId : Int
  now : Int
deriving DecidableEq, Repr

/-- `SELECT id FROM users WHERE username = $1 OR email = $2`. -/
def sqlSelectIdByUsernameOrEmail (db : DB) (uname email : String) : DB × List Int :=
  (db, (db.users.filter (fun u => u.username == uname || u.email == email)).map (fun u => u.id))

/-- `INSERT INTO users (username, email, password_hash) VALUES ($1, $2, $3)`. -/
def sqlInsertUser (db : DB) (uname email phash : String) : DB :=
  { db with
    users := db.users ++ [⟨db.nextUserId, uname, email, phash⟩]
    nextUserId := db.nextUserId + 1 }

/-- `SELECT id, password_hash FROM users WHERE username = $1`. -/
def sqlSelectIdHashByUsername (db : DB) (uname : String) : DB × List (Int × String) :=
  (db, (db.users.filter (fun u => u.username == uname)).map (fun u => (u.id, u.password_hash)))

/-- `INSERT INTO posts (user_id, content) VALUES ($1, $2) RETURNING id,
created_at`: the store assigns the id and the timestamp and returns them. -/
def sqlInsertPost (db : DB) (uid : Int) (content : String) : DB × (Int × Int) :=
  ({ db with
      posts := db.posts ++ [⟨db.nextPostId, uid, content, db.now⟩]
      nextPostId := db.nextPostId + 1 },
   (db.nextPostId, db.now))

/-- The feed query's JOIN: `FROM posts p JOIN follows f ON p.user_id =
f.following_id WHERE f.follower_id = $1` (nested-loop order). -/
def feedJoin (db : DB) (uid : Int) : List Post :=
  db.posts.flatMap (fun p =>
    db.follows.filterMap (fun f =>
      if f.following_id == p.user_id && f.follower_id == uid then some p else none))

/-- `ORDER BY p.created_at DESC`: newest first (the store's tie order is
modelled as the stable insertion sort). -/
def feedOrder (l : List Post) : List Post :=
  l.insertionSort (fun a b => b.created_at ≤ a.created_at)

/-- The whole feed query of src/main.py:111-118, `LIMIT 50` included. -/
def sqlSelectFeed (db : DB) (uid : Int) : DB × List Post :=
  (db, (feedOrder (feedJoin db uid)).take 50)

/-- `INSERT INTO follows (follower_id, following_id) VALUES ($1, $2)
ON CONFLICT DO NOTHING`. -/
def sqlInsertFollow (db : DB) (a b : Int) : DB :=
  if db.follows.any (fun f => f.follower_id == a && f.following_id == b) then db
  else { db with follows := db.follows ++ [⟨a, b⟩] }

/-! ## Request handlers

Each handler is a function from its inputs and the store state to the new
store state and its response: `Except HTTPError resp` is the raised
`HTTPException` or the returned JSON body. -/

/-- A raised `HTTPException`: status code and optional detail string. -/
structure HTTPError where
  status : Nat
  detail : Option String
deriving DecidableEq, Repr

/-- The `UserCreate` request model (src/main.py:28-31). -/
structure UserCreate where
  username : String
  email : String
  password : String
deriving DecidableEq, Repr

/-- `register` (src/main.py:74-87).  The password hasher is the abstract
external `hash`. -/
def register (hash : String → String) (user : UserCreate) (db : DB) :
    DB × Except HTTPError String :=
  let r1 := sqlSelectIdByUsernameOrEmail db user.username user.email
  match r1.2.head? with
  | some _ => (r1.1, .error ⟨400, some "User already exists"⟩)
  | none =>
    let hashed := hash user.password
    (sqlInsertUser r1.1 user.username user.email hashed,
     .ok "User created – welcome to Lichen Social 🌱")

/-- The login success body: the issued token and the token type. -/
structure LoginResp where
  access_token : Token
  token_type : String

/-- `login` (src/main.py:89-97).  The password verifier is the abstract
external `verify`; `secretKey`, `now`, `minutes` are the process
configuration and clock that `create_access_token` reads. -/
def login (verify : String → String → Bool) (secretKey : String) (now minutes : Int)
    (username password : String) (db : DB) : DB × Except HTTPError LoginResp :=
  let r1 := sqlSelectIdHashByUsername db username
  match r1.2.head? with
  | none => (r1.1, .error ⟨401, some "Mauvais combo"⟩)
  | some (uid, phash) =>
    if verify password phash then
      (r1.1, .ok ⟨create_access_token [("sub", .vstr (pyStrOfInt uid))] secretKey now minutes,
                  "bearer"⟩)
    else (r1.1, .error ⟨401, some "Mauvais combo"⟩)

/-- The create-post success body (src/main.py:107). -/
structure PostResp where
  id : Int
  content : String
  created_at : Int
deriving DecidableEq, Repr

/-- `create_post` (src/main.py:99-107); `user_id` is the identity the
session guard resolved. -/
def create_post (content : String) (user_id : Int) (db : DB) :
    DB × Except HTTPError PostResp :=
  let r1 := sqlInsertPost db user_id content
  (r1.1, .ok ⟨r1.2.1, content, r1.2.2⟩)

/-- One element of the feed response list (src/main.py:121). -/
structure FeedItem where
  id : Int
  content : String
  user_id : Int
  created_at : Int
deriving DecidableEq, Repr

/-- `feed` (src/main.py:109-121); `user_id` is the identity the session
guard resolved. -/
def feed (user_id : Int) (db : DB) : DB × List FeedItem :=
  let r1 := sqlSelectFeed db user_id
  (r1.1, r1.2.map (fun p => ⟨p.id, p.content, p.user_id, p.created_at⟩))

/-- `follow` (src/main.py:123-130); `user_id` is the identity the session
guard resolved, `target_id` the path parameter. -/
def follow (target_id : Int) (user_id : Int) (db : DB) :
    DB × Except HTTPError String :=
  (sqlInsertFollow db user_id target_id,
   .ok ("Tu suis maintenant l'utilisateur " ++ pyStrOfInt target_id))

/-! ## Helper lemmas -/

/-- At most one follow edge per (follower, following) pair. -/
def PairUnique (l : List Follow) : Prop :=
  l.Pairwise (fun a b => ¬(a.follower_id = b.follower_id ∧ a.following_id = b.following_id))

instance (l : List Follow) : Decidable (PairUnique l) := by
  unfold PairUnique
  infer_instance

instance : IsTotal Post (fun a b => b.created_at ≤ a.created_at) :=
  ⟨fun a b => le_total b.created_at a.created_at⟩

instance : IsTrans Post (fun a b => b.created_at ≤ a.created_at) :=
  ⟨fun _ _ _ h1 h2 => le_trans h2 h1⟩

theorem feed_snd (uid : Int) (db : DB) :
    (feed uid db).2 =
      ((feedOrder (feedJoin db uid)).take 50).map
        (fun p => FeedItem.mk p.id p.content p.user_id p.created_at) := rfl

theorem feedJoin_mem {db : DB} {uid : Int} {p : Post} (h : p ∈ feedJoin db uid) :
    ∃ f ∈ db.follows, f.follower_id = uid ∧ f.following_id = p.user_id := by
  unfold feedJoin at h
  rw [List.mem_flatMap] at h
  obtain ⟨q, _, hq⟩ := h
  rw [List.mem_filterMap] at hq
  obtain ⟨f, hf, hif⟩ := hq
  by_cases hc : (f.following_id == q.user_id && f.follower_id == uid) = true
  · rw [if_pos hc] at hif
    obtain rfl : q = p := by injection hif
    simp only [Bool.and_eq_true, beq_iff_eq] at hc
    exact ⟨f, hf, hc.2, hc.1⟩
  · rw [if_neg hc] at hif
    exact absurd hif (by simp)

theorem feed_mem {db : DB} {uid : Int} {it : FeedItem} (h : it ∈ (feed uid db).2) :
    ∃ f ∈ db.follows, f.follower_id = uid ∧ f.following_id = it.user_id := by
  rw [feed_snd, List.mem_map] at h
  obtain ⟨p, hp, rfl⟩ := h
  have hp2 : p ∈ feedOrder (feedJoin db uid) := List.take_subset 50 _ hp
  have hp3 : p ∈ feedJoin db uid := by
    unfold feedOrder at hp2
    exact (List.perm_insertionSort _ _).mem_iff.mp hp2
  exact feedJoin_mem hp3

theorem feed_length_le (uid : Int) (db : DB) : ((feed uid db).2).length ≤ 50 := by
  rw [feed_snd, List.length_map]
  calc ((feedOrder (feedJoin db uid)).take 50).length
      ≤ 50 := by rw [List.length_take]; exact inf_le_left

theorem feed_sorted (uid : Int) (db : DB) :
    ((feed uid db).2).Pairwise (fun a b => b.created_at ≤ a.created_at) := by
  rw [feed_snd, List.pairwise_map]
  refine List.Pairwise.sublist (List.take_sublist 50 _) ?_
  exact List.sorted_insertionSort (fun a b => b.created_at ≤ a.created_at) (feedJoin db uid)

theorem follow_fst (t uid : Int) (db : DB) : (follow t uid db).1 = sqlInsertFollow db uid t := rfl

theorem sqlInsertFollow_mem_pred (db : DB) (a b : Int)
    (h : (db.follows.any fun f => f.follower_id == a && f.following_id == b) = false) :
    ∀ f ∈ db.follows, ¬(f.follower_id = a ∧ f.following_id = b) := by
  intro f hf hc
  have := List.any_eq_false.mp h f hf
  simp only [Bool.and_eq_true, beq_iff_eq] at this
  exact this ⟨hc.1, hc.2⟩

/-! ## Claims -/

/-- C4: for every authenticated caller and every store state, the feed
handler returns at most 50 posts, every returned post is authored by some
user the caller follows (a follow edge from the caller to the post's author
exists), and the list is ordered by `created_at` descending. -/
theorem C4_feed_spec (uid : Int) (db : DB) :
    ((feed uid db).2).length ≤ 50 ∧
    (∀ it ∈ (feed uid db).2,
      ∃ f ∈ db.follows, f.follower_id = uid ∧ f.following_id = it.user_id) ∧
    ((feed uid db).2).Pairwise (fun a b => b.created_at ≤ a.created_at) :=
  ⟨feed_length_le uid db, fun _ h => feed_mem h, feed_sorted uid db⟩

/-- C5: for every user with no self-follow edge, the feed returned to that
user contains no post authored by that user. -/
theorem C5_feed_no_self (uid : Int) (db : DB)
    (h : ∀ f ∈ db.follows, ¬(f.follower_id = uid ∧ f.following_id = uid)) :
    ∀ it ∈ (feed uid db).2, it.user_id ≠ uid := by
  intro it hit heq
  obtain ⟨f, hf, h1, h2⟩ := feed_mem hit
  exact h f hf ⟨h1, heq ▸ h2⟩

theorem C5_witness :
    (∀ f ∈ (DB.mk [User.mk 1 "a" "a@x" "H"] [Post.mk 1 1 "hi" 5] [Follow.mk 1 2] 2 2 9).follows,
        ¬(f.follower_id = 1 ∧ f.following_id = 1)) ∧
    (∀ it ∈ (feed 1 (DB.mk [User.mk 1 "a" "a@x" "H"] [Post.mk 1 1 "hi" 5] [Follow.mk 1 2] 2 2 9)).2,
        it.user_id ≠ 1) :=
  ⟨by decide,
   C5_feed_no_self 1 (DB.mk [User.mk 1 "a" "a@x" "H"] [Post.mk 1 1 "hi" 5] [Follow.mk 1 2] 2 2 9)
     (by decide)⟩

/-- C10: the feed handler is read-only — for every caller and store state it
leaves the whole store state unchanged. -/
theorem C10_feed_readonly (uid : Int) (db : DB) : (feed uid db).1 = db := rfl

/-- C8: for every integer target id (including ids of no existing user) the
follow handler succeeds with the acknowledgment message echoing that target
id; no error is ever raised. -/
theorem C8_follow_no_existence_check (target_id uid : Int) (db : DB) :
    (follow target_id uid db).2 =
      Except.ok ("Tu suis maintenant l'utilisateur " ++ pyStrOfInt target_id) := rfl

/-- C6: follow is idempotent on the store state — following the same target
twice yields the same state as following once; the duplicate insert is a
silent no-op, not an error; and pair-uniqueness of the follow edges is
preserved, so at most one edge per (follower, following) pair ever exists. -/
theorem C6_follow_idempotent (t uid : Int) (db : DB) (h : PairUnique db.follows) :
    (follow t uid (follow t uid db).1).1 = (follow t uid db).1 ∧
    (∃ m, (follow t uid (follow t uid db).1).2 = Except.ok m) ∧
    PairUnique ((follow t uid db).1).follows := by
  refine ⟨?_, ⟨_, rfl⟩, ?_⟩
  · simp only [follow_fst]
    unfold sqlInsertFollow
    split
    · rfl
    · next hc =>
      rw [if_pos]
      simp only [List.any_append, List.any_cons, List.any_nil, Bool.or_false, beq_self_eq_true,
        Bool.and_self, Bool.or_true]
  · rw [follow_fst]
    unfold sqlInsertFollow
    split
    · exact h
    · next hc =>
      unfold PairUnique
      rw [List.pairwise_append]
      refine ⟨h, List.pairwise_singleton _ _, ?_⟩
      intro a ha b hb
      simp only [List.mem_singleton] at hb
      subst hb
      exact sqlInsertFollow_mem_pred db uid t (by rwa [Bool.not_eq_true] at hc) a ha

theorem C6_witness :
    PairUnique (DB.mk [] [] [Follow.mk 3 4] 1 1 0).follows ∧
    ((follow 2 1 (follow 2 1 (DB.mk [] [] [Follow.mk 3 4] 1 1 0)).1).1 =
        (follow 2 1 (DB.mk [] [] [Follow.mk 3 4] 1 1 0)).1 ∧
      (∃ m, (follow 2 1 (follow 2 1 (DB.mk [] [] [Follow.mk 3 4] 1 1 0)).1).2 = Except.ok m) ∧
      PairUnique ((follow 2 1 (DB.mk [] [] [Follow.mk 3 4] 1 1 0)).1).follows) :=
  ⟨by decide, C6_follow_idempotent 2 1 (DB.mk [] [] [Follow.mk 3 4] 1 1 0) (by decide)⟩

/-- C9: the `if user_id is None` branch of `get_current_user` is unreachable:
`user_id` is the result of `int(...)`, which never yields `None`, so the
bare 401 that branch would raise (status 401, no detail) is never produced,
on any token, secret, or clock. -/
theorem C9_none_branch_unreachable (t : Token) (sk : String) (now : Int) :
    get_current_user t sk now ≠ GuardResult.httpError 401 none := by
  unfold get_current_user
  cases hd : jwt_decode t sk now with
  | error e => simp
  | ok payload =>
    cases hp : pyInt (pyDictGetVal payload "sub") with
    | error e => simp [hp]
    | ok n => simp [hp, pyIsNone]

/-- C1 (evidence for the code bug): on a token whose signature verifies but
whose decoded payload has no `sub` claim, `get_current_user` raises an
uncaught Python `TypeError` (an unhandled server fault, not an HTTP
response), and on a verifying token whose `sub` is the non-numeric string
"abc" it raises an uncaught `ValueError` — in neither case the HTTP 401 the
spec prescribes, because `except JWTError` does not catch either exception. -/
theorem C1_guard_unhandled_fault :
    get_current_user ⟨[("exp", .vint 100)], "k"⟩ "k" 0 = .uncaught .typeError ∧
    get_current_user ⟨[("sub", .vstr "abc"), ("exp", .vint 100)], "k"⟩ "k" 0 =
      .uncaught .valueError := by
  decide

/-- Sample store state for the witnesses: one registered user `bob`. -/
def dbBob : DB := ⟨[⟨1, "bob", "b@x", "H"⟩], [], [], 2, 1, 0⟩

/-- Sample external password hasher for the witnesses. -/
def hashH : String → String := fun s => "h" ++ s

/-- Sample external password verifier for the witnesses. -/
def verifyEq : String → String → Bool := fun p h => p == h

/-- C2: registration conflicts exactly on an existing username or email: if
some stored user matches the request's username or email, `register` fails
with 400 "User already exists" and leaves the store unchanged (no row
inserted); otherwise it appends exactly one user row carrying the hash of
the supplied password and returns the success message. -/
theorem C2_register_spec (hash : String → String) (u : UserCreate) (db : DB) :
    ((∃ x ∈ db.users, x.username = u.username ∨ x.email = u.email) →
      register hash u db = (db, .error ⟨400, some "User already exists"⟩)) ∧
    ((∀ x ∈ db.users, x.username ≠ u.username ∧ x.email ≠ u.email) →
      register hash u db =
        ({ db with
            users := db.users ++ [⟨db.nextUserId, u.username, u.email, hash u.password⟩]
            nextUserId := db.nextUserId + 1 },
         .ok "User created – welcome to Lichen Social 🌱")) := by
  constructor
  · rintro ⟨x, hx, hor⟩
    have hne : (db.users.filter fun v => v.username == u.username || v.email == u.email) ≠ [] := by
      intro hnil
      have hnp := List.filter_eq_nil_iff.mp hnil x hx
      simp only [Bool.or_eq_true, beq_iff_eq] at hnp
      exact hnp hor
    obtain ⟨y, ys, hys⟩ := List.exists_cons_of_ne_nil hne
    unfold register sqlSelectIdByUsernameOrEmail
    simp only [hys, List.map_cons, List.head?_cons]
  · intro hforall
    have hnil : (db.users.filter fun v => v.username == u.username || v.email == u.email) = [] := by
      rw [List.filter_eq_nil_iff]
      intro a ha
      simp only [Bool.or_eq_true, beq_iff_eq, not_or]
      exact ⟨(hforall a ha).1, (hforall a ha).2⟩
    unfold register sqlSelectIdByUsernameOrEmail sqlInsertUser
    simp only [hnil, List.map_nil, List.head?_nil]

theorem C2_witness :
    (∀ x ∈ dbBob.users, x.username ≠ "alice" ∧ x.email ≠ "a@x") ∧
    register hashH ⟨"alice", "a@x", "pw"⟩ dbBob =
      ({ dbBob with
          users := dbBob.users ++ [⟨dbBob.nextUserId, "alice", "a@x", hashH "pw"⟩]
          nextUserId := dbBob.nextUserId + 1 },
       .ok "User created – welcome to Lichen Social 🌱") :=
  ⟨by decide, (C2_register_spec hashH ⟨"alice", "a@x", "pw"⟩ dbBob).2 (by decide)⟩

/-- C3: the login handler fails with the identical 401 "Mauvais combo"
response both when the username matches no stored user and when it matches
one whose stored hash rejects the supplied password, so the two failure
causes are indistinguishable from the responses. -/
theorem C3_login_indistinguishable (verify : String → String → Bool) (sk : String)
    (now minutes : Int) (db : DB) (u1 p1 u2 p2 : String)
    (h1 : ∀ x ∈ db.users, x.username ≠ u1)
    (h2 : ∃ x ∈ db.users, x.username = u2)
    (h3 : ∀ x ∈ db.users, x.username = u2 → verify p2 x.password_hash = false) :
    (login verify sk now minutes u1 p1 db).2 = .error ⟨401, some "Mauvais combo"⟩ ∧
    (login verify sk now minutes u2 p2 db).2 = (login verify sk now minutes u1 p1 db).2 := by
  have hnil : (db.users.filter fun v => v.username == u1) = [] := by
    rw [List.filter_eq_nil_iff]
    intro a ha
    simp only [beq_iff_eq]
    exact h1 a ha
  have hA : (login verify sk now minutes u1 p1 db).2 = .error ⟨401, some "Mauvais combo"⟩ := by
    unfold login sqlSelectIdHashByUsername
    simp only [hnil, List.map_nil, List.head?_nil]
  have hne : (db.users.filter fun v => v.username == u2) ≠ [] := by
    obtain ⟨x, hx, hxu⟩ := h2
    intro hnil2
    have hnp := List.filter_eq_nil_iff.mp hnil2 x hx
    simp only [beq_iff_eq] at hnp
    exact hnp hxu
  obtain ⟨y, ys, hys⟩ := List.exists_cons_of_ne_nil hne
  have hy : y ∈ db.users.filter fun v => v.username == u2 := by
    rw [hys]; exact List.mem_cons_self _ _
  have hymem := (List.mem_filter.mp hy).1
  have hyu : y.username = u2 := by
    have hb := (List.mem_filter.mp hy).2
    simpa using hb
  have hv : verify p2 y.password_hash = false := h3 y hymem hyu
  have hB : (login verify sk now minutes u2 p2 db).2 = .error ⟨401, some "Mauvais combo"⟩ := by
    unfold login sqlSelectIdHashByUsername
    simp only [hys, List.map_cons, List.head?_cons]
    rw [hv]
    simp
  exact ⟨hA, by rw [hA, hB]⟩

theorem C3_witness :
    ((∀ x ∈ dbBob.users, x.username ≠ "alice") ∧
      (∃ x ∈ dbBob.users, x.username = "bob") ∧
      (∀ x ∈ dbBob.users, x.username = "bob" → verifyEq "wrong" x.password_hash = false)) ∧
    ((login verifyEq "s" 0 15 "alice" "x" dbBob).2 = .error ⟨401, some "Mauvais combo"⟩ ∧
      (login verifyEq "s" 0 15 "bob" "wrong" dbBob).2 =
        (login verifyEq "s" 0 15 "alice" "x" dbBob).2) :=
  ⟨⟨by decide, by decide, by decide⟩,
   C3_login_indistinguishable verifyEq "s" 0 15 dbBob "alice" "x" "bob" "wrong"
     (by decide) (by decide) (by decide)⟩

/-- C7: round-trip of the token codec through the session guard — decoding,
before expiry and with the same secret, a token created by
`create_access_token` with `sub` set to the string form of a user id
resolves to exactly that integer user id. -/
theorem C7_token_roundtrip (uid : Int) (sk : String) (issueNow minutes decodeNow : Int)
    (h : decodeNow < issueNow + minutes * 60) :
    get_current_user (create_access_token [("sub", .vstr (pyStrOfInt uid))] sk issueNow minutes)
      sk decodeNow = .ok uid := by
  have hdec : jwt_decode (create_access_token [("sub", .vstr (pyStrOfInt uid))] sk issueNow minutes)
      sk decodeNow =
      .ok [("sub", .vstr (pyStrOfInt uid)), ("exp", .vint (issueNow + minutes * 60))] := by
    unfold jwt_decode
    rw [if_pos]
    · rfl
    · exact ⟨rfl, h, trivial⟩
  have hsub : pyInt (pyDictGetVal
      [("sub", .vstr (pyStrOfInt uid)), ("exp", .vint (issueNow + minutes * 60))] "sub") =
      .ok uid := by
    show (match pyIntOfString (pyStrOfInt uid) with
          | some n => Except.ok n
          | none => Except.error PyErr.valueError) = Except.ok uid
    rw [pyIntOfString_pyStrOfInt]
  unfold get_current_user
  rw [hdec]
  show (match pyInt (pyDictGetVal
        [("sub", PyVal.vstr (pyStrOfInt uid)), ("exp", PyVal.vint (issueNow + minutes * 60))]
        "sub") with
      | Except.error e => GuardResult.uncaught e
      | Except.ok user_id =>
        if pyIsNone (PyVal.vint user_id) = true then GuardResult.httpError 401 none
        else GuardResult.ok user_id) = GuardResult.ok uid
  rw [hsub]
  rfl

theorem C7_witness :
    ((10 : Int) < 0 + 15 * 60) ∧
    get_current_user (create_access_token [("sub", .vstr (pyStrOfInt 42))] "s" 0 15) "s" 10 =
      .ok 42 :=
  ⟨by decide, C7_token_roundtrip 42 "s" 0 15 10 (by decide)⟩

/-- Sample store for the C4 witness: user 1 follows user 2, who has posted. -/
def dbFeedW : DB :=
  ⟨[⟨1, "a", "a@x", "H"⟩, ⟨2, "b", "b@x", "H"⟩], [⟨1, 2, "hello", 5⟩], [⟨1, 2⟩], 3, 2, 9⟩

theorem C4_witness :
    ((feed 1 dbFeedW).2).length ≤ 50 ∧
    (∀ it ∈ (feed 1 dbFeedW).2,
      ∃ f ∈ dbFeedW.follows, f.follower_id = 1 ∧ f.following_id = it.user_id) ∧
    ((feed 1 dbFeedW).2).Pairwise (fun a b => b.created_at ≤ a.created_at) :=
  C4_feed_spec 1 dbFeedW

theorem C9_witness :
    get_current_user ⟨[("sub", PyVal.vstr "7")], "k"⟩ "k" 0 ≠ GuardResult.httpError 401 none :=
  C9_none_branch_unreachable ⟨[("sub", PyVal.vstr "7")], "k"⟩ "k" 0
